import Mathlib

/-!
Verification of the MCP tool-server core: a shallow embedding of the tool
registry, the calculator engine (pydantic validation + service), and the
expense-tracker proxy client, with theorems settling the specified
contracts.

Numbers are modelled as exact rationals in a kernel-computable
representation (`Q` below), interpreted into Mathlib rationals by
`Q.toRat`.  Binary floating-point representation effects (shortest-repr
printing, rounding of inputs that are not exactly representable in a
double) are outside the model; every concrete value used in a theorem
below is exactly representable in both models and the observed behaviour
of the program agrees with the rational model at those inputs.
-/

set_option maxRecDepth 100000

namespace MCP

/-- Exact rational numbers with a numerator and the predecessor of the
(hence always positive) denominator.  All arithmetic operations normalize
to lowest terms; comparisons use cross-multiplication and so are
independent of normalization. -/
structure Q where
  num : ℤ
  dpred : ℕ
deriving DecidableEq

/-- The (positive) denominator. -/
def Q.den (a : Q) : ℕ := a.dpred + 1

/-- The rational `n / d` in lowest terms (`d = 0` never arises from the
embedding and yields 0). -/
def mkQ (n : ℤ) (d : ℕ) : Q :=
  let g := Nat.gcd n.natAbs d
  if g = 0 then ⟨0, 0⟩ else ⟨n / (g : ℤ), d / g - 1⟩

instance (n : ℕ) : OfNat Q n := ⟨⟨n, 0⟩⟩

instance : Neg Q := ⟨fun a => ⟨-a.num, a.dpred⟩⟩

instance : OfScientific Q :=
  ⟨fun m b e => if b then mkQ (m : ℤ) (10 ^ e) else ⟨(m : ℤ) * 10 ^ e, 0⟩⟩

def Q.add (a b : Q) : Q := mkQ (a.num * b.den + b.num * a.den) (a.den * b.den)

def Q.sub (a b : Q) : Q := mkQ (a.num * b.den - b.num * a.den) (a.den * b.den)

def Q.mul (a b : Q) : Q := mkQ (a.num * b.num) (a.den * b.den)

/-- `a / b` for `b ≠ 0`; division by (value) zero yields the junk value 0
and is guarded against at every call site of the embedding. -/
def Q.div (a b : Q) : Q :=
  if b.num = 0 then ⟨0, 0⟩
  else mkQ (Int.sign b.num * (a.num * b.den)) (a.den * b.num.natAbs)

def Q.abs (a : Q) : Q := ⟨|a.num|, a.dpred⟩

/-- Multiplicative inverse (of a normalized value); 0 maps to 0. -/
def Q.inv (a : Q) : Q :=
  if a.num = 0 then ⟨0, 0⟩
  else ⟨Int.sign a.num * a.den, a.num.natAbs - 1⟩

/-- Binary exponentiation with structural fuel (kernel-computable with
logarithmic recursion depth): `b ^ n = (b * b) ^ (n / 2) * b ^ (n % 2)`. -/
def ipowAux (fuel : ℕ) (b : ℤ) (n : ℕ) : ℤ :=
  match fuel with
  | 0 => 1
  | fuel + 1 =>
      if n = 0 then 1
      else
        let h := ipowAux fuel (b * b) (n / 2)
        if n % 2 = 1 then h * b else h

/-- Integer powers (kernel-computable). -/
def ipow (b : ℤ) (n : ℕ) : ℤ := ipowAux n b n

def Q.npow (a : Q) (n : ℕ) : Q := mkQ (ipow a.num n) (a.den ^ n)

def Q.zpow (a : Q) (n : ℤ) : Q :=
  if 0 ≤ n then a.npow n.toNat else (a.npow (-n).toNat).inv

/-- Strict order on `Q` by cross-multiplication. -/
def Q.Lt (a b : Q) : Prop := a.num * (b.den : ℤ) < b.num * (a.den : ℤ)

instance (a b : Q) : Decidable (a.Lt b) :=
  inferInstanceAs (Decidable (_ < _))

/-- Order on `Q` by cross-multiplication. -/
def Q.Le (a b : Q) : Prop := a.num * (b.den : ℤ) ≤ b.num * (a.den : ℤ)

instance (a b : Q) : Decidable (a.Le b) :=
  inferInstanceAs (Decidable (_ ≤ _))

/-- Interpretation into the Mathlib rationals. -/
def Q.toRat (a : Q) : ℚ := (a.num : ℚ) / (a.den : ℚ)

/-- Floor of a rational, by flooring integer division. -/
def qfloor (q : Q) : ℤ := Int.fdiv q.num q.den

/-- JSON-like values: the shape of raw tool arguments and of parsed HTTP
response bodies. -/
inductive JValue where
  | null
  | bool (b : Bool)
  | num (q : Q)
  | str (s : String)
  | arr (elems : List JValue)
  | obj (fields : List (String × JValue))

/-- A protocol text content block, `TextContent(type="text", text=...)`. -/
structure TextContent where
  type : String
  text : String

/-- `Operation` enum from `src/models/calculator_models.py`. -/
inductive Operation where
  | add
  | subtract
  | multiply
  | divide
  | power
  | modulo
deriving DecidableEq

/-- The `.value` of each `Operation` enum member. -/
def Operation.value : Operation → String
  | .add => "add"
  | .subtract => "subtract"
  | .multiply => "multiply"
  | .divide => "divide"
  | .power => "power"
  | .modulo => "modulo"

/-- Parsing a raw string into an `Operation` member (pydantic enum
coercion). -/
def Operation.ofString? : String → Option Operation
  | "add" => some .add
  | "subtract" => some .subtract
  | "multiply" => some .multiply
  | "divide" => some .divide
  | "power" => some .power
  | "modulo" => some .modulo
  | _ => none

/-- `CalculatorInput` after successful pydantic validation:
operation, two float operands, precision in `[0, 10]` (default 2). -/
structure CalculatorInput where
  operation : Operation
  a : Q
  b : Q
  precision : ℕ
deriving DecidableEq

/-- `CalculatorOutput` from `src/models/calculator_models.py`. -/
structure CalculatorOutput where
  operation : String
  operand_a : Q
  operand_b : Q
  result : Q
  formatted_result : String
  expression : String
deriving DecidableEq

/-- Python exception classes that the calculator layers raise and catch. -/
inductive PyError where
  | valueError (msg : String)
  | zeroDivisionError (msg : String)
  | overflowError (msg : String)
deriving DecidableEq

/-- The `validate_division_by_zero` validator on field `b` of
`CalculatorInput`: rejects divide and modulo when `b == 0`. -/
def validate_division_by_zero (operation : Operation) (v : Q) :
    Except String Q :=
  if operation = .divide ∧ v.num = 0 then
    Except.error "Cannot divide by zero"
  else if operation = .modulo ∧ v.num = 0 then
    Except.error "Cannot perform modulo with zero divisor"
  else
    Except.ok v

/-- The `validate_power_limits` validator on field `b` of `CalculatorInput`:
rejects power when `abs(a) > 1000 or abs(b) > 1000`. -/
def validate_power_limits (operation : Operation) (a v : Q) :
    Except String Q :=
  if operation = .power ∧ (Q.Lt 1000 a.abs ∨ Q.Lt 1000 v.abs) then
    Except.error "Power operation limited to bases and exponents within ±1000"
  else
    Except.ok v

/-- Round a rational to the nearest integer, ties to even: the rounding
rule of Python `round` (the model works on exact values; the program works
on the binary doubles representing them).  `r = q.num - f * q.den` is the
numerator of the fractional part, so `frac <=> 1/2` is `2r <=> den`. -/
def roundHalfEven (q : Q) : ℤ :=
  let f := qfloor q
  let r := q.num - f * q.den
  if 2 * r < (q.den : ℤ) then f
  else if (q.den : ℤ) < 2 * r then f + 1
  else if f % 2 = 0 then f else f + 1

/-- Python `round(q, p)`: round half-to-even at `p` decimal digits. -/
def pyRound (q : Q) (p : ℕ) : Q :=
  mkQ (roundHalfEven (q.mul ⟨(10 ^ p : ℕ), 0⟩)) (10 ^ p)

/-- The magnitude at which a real result rounds to an IEEE double
infinity; `math.pow` raises `OverflowError: math range error` at or
beyond it. -/
def doubleOverflowBound : Q := ⟨((2 ^ 1024 - 2 ^ 970 : ℕ) : ℤ), 0⟩

/-- `math.pow(a, b)`.  For integral exponents this is exact integer-power
arithmetic with the CPython error behaviour: `0` to a negative power and a
negative base with a fractional exponent raise `ValueError: math domain
error`, and a result too large for a double raises `OverflowError: math
range error` (underflow silently becomes a tiny value / 0.0, hence stays a
success).  A nonnegative base with a fractional exponent has an irrational
value outside the rational model; no claim depends on it and the model
returns 0 there. -/
def mathPow (a b : Q) : Except PyError Q :=
  if a.num = 0 ∧ b.num < 0 then
    Except.error (.valueError "math domain error")
  else if b.den = 1 then
    let r := a.zpow b.num
    if Q.Le doubleOverflowBound r.abs then
      Except.error (.overflowError "math range error")
    else Except.ok r
  else if a.num < 0 then Except.error (.valueError "math domain error")
  else Except.ok 0

/-- The operation dispatch table of `CalculatorService.calculate`:
`_add`, `_subtract`, `_multiply`, `_divide`, `_power`, `_modulo`.
Division and modulo by zero raise `ZeroDivisionError` in Python; both are
unreachable for validated inputs. Python float modulo is
`a - b * floor(a / b)`. -/
def applyOperation : Operation → Q → Q → Except PyError Q
  | .add, a, b => Except.ok (a.add b)
  | .subtract, a, b => Except.ok (a.sub b)
  | .multiply, a, b => Except.ok (a.mul b)
  | .divide, a, b =>
      if b.num = 0 then
        Except.error (.zeroDivisionError "float division by zero")
      else Except.ok (a.div b)
  | .power, a, b => mathPow a b
  | .modulo, a, b =>
      if b.num = 0 then Except.error (.zeroDivisionError "float modulo")
      else Except.ok (a.sub (b.mul ⟨qfloor (a.div b), 0⟩))

/-- Smallest `k ≤ 30` with `den ∣ 10 ^ k`, if any: the number of decimal
digits needed to write the rational exactly. -/
def decExp (den : ℕ) : Option ℕ :=
  (List.range 31).find? (fun k => 10 ^ k % den == 0)

/-- Left-pad a digit string with zeros to length `n`. -/
def padLeftZeros (s : String) (n : ℕ) : String :=
  if s.length < n then String.mk (List.replicate (n - s.length) '0') ++ s
  else s

/-- Rendering of a (normalized) rational the way Python `repr` prints the
corresponding float for decimally-representable values: minimal decimal
digits, and a trailing `.0` for integral values (`56.0`, `10.5`, `-3.14`).
Values needing more than 30 decimal digits fall back to a fraction
rendering (outside the float-repr model; no claim depends on it). -/
def qRepr (q : Q) : String :=
  let sign := if q.num < 0 then "-" else ""
  match decExp q.den with
  | some k =>
      let scaled : ℕ := q.num.natAbs * (10 ^ k / q.den)
      let s := Nat.repr scaled
      if k = 0 then sign ++ s ++ ".0"
      else
        let s := padLeftZeros s (k + 1)
        sign ++ s.dropRight k ++ "." ++ s.takeRight k
  | none => sign ++ Nat.repr q.num.natAbs ++ "/" ++ Nat.repr q.den

/-- `CalculatorService._get_operation_symbol`.  The multiply and divide
entries reproduce the exact characters stored in the source file: the
bytes there are a double-encoding (mojibake) of the multiplication and
division signs, namely U+0E23 U+0097 for multiply and U+0E23 U+0E17 for
divide, and subtract is the ASCII hyphen-minus.  (The `.get` default "?"
of the source is unreachable over the six enum members.) -/
def CalculatorService._get_operation_symbol : Operation → String
  | .add => "+"
  | .subtract => "-"
  | .multiply => "ร\u0097"
  | .divide => "รท"
  | .power => "^"
  | .modulo => "%"

/-- `CalculatorService.calculate`: dispatch the operation, round to the
requested precision, render the expression and formatted result.  Raised
exceptions propagate (the try/except in the source logs and re-raises). -/
def CalculatorService.calculate (input_data : CalculatorInput) :
    Except PyError CalculatorOutput := do
  let result ← applyOperation input_data.operation input_data.a input_data.b
  let rounded_result := pyRound result input_data.precision
  let symbol := CalculatorService._get_operation_symbol input_data.operation
  let expression :=
    qRepr input_data.a ++ " " ++ symbol ++ " " ++ qRepr input_data.b
  let formatted_result := expression ++ " = " ++ qRepr rounded_result
  Except.ok
    { operation := input_data.operation.value
      operand_a := input_data.a
      operand_b := input_data.b
      result := rounded_result
      formatted_result := formatted_result
      expression := expression }

/-- Normalize a rational (raw JSON numbers may be written in any form;
Python turns them into canonical floats on parse). -/
def Q.norm (a : Q) : Q := mkQ a.num a.den

/-- Pydantic construction `CalculatorInput(**arguments)`: required
`operation` (enum member), required floats `a` and `b`, optional integer
`precision` in `[0, 10]` defaulting to 2, then the two field validators on
`b` in declaration order.  Error strings abbreviate the pydantic message
format; no claim compares them to a literal. -/
def parseCalculatorInput (arguments : List (String × JValue)) :
    Except String CalculatorInput := do
  let operation ←
    match arguments.lookup "operation" with
    | some (.str s) =>
        match Operation.ofString? s with
        | some op => Except.ok op
        | none =>
            Except.error "operation: value is not a valid enumeration member"
    | some _ =>
        Except.error "operation: value is not a valid enumeration member"
    | none => Except.error "operation: field required"
  let a ←
    match arguments.lookup "a" with
    | some (.num q) => Except.ok q.norm
    | some _ => Except.error "a: value is not a valid float"
    | none => Except.error "a: field required"
  let b ←
    match arguments.lookup "b" with
    | some (.num q) => Except.ok q.norm
    | some _ => Except.error "b: value is not a valid float"
    | none => Except.error "b: field required"
  let precision ←
    match arguments.lookup "precision" with
    | none => Except.ok 2
    | some (.num p) =>
        let p := p.norm
        if p.den = 1 ∧ 0 ≤ p.num ∧ p.num ≤ 10 then Except.ok p.num.toNat
        else Except.error "precision: value is out of range"
    | some _ => Except.error "precision: value is not a valid integer"
  let b ← validate_division_by_zero operation b
  let b ← validate_power_limits operation a b
  Except.ok { operation := operation, a := a, b := b, precision := precision }

/-- `CalculatorToolHandler._format_response`. -/
def CalculatorToolHandler._format_response (result : CalculatorOutput) :
    String :=
  "✅ Calculation Result:\n\n" ++ result.formatted_result ++
    "\n\nDetails:\n- Operation: " ++ result.operation ++
    "\n- First Number: " ++ qRepr result.operand_a ++
    "\n- Second Number: " ++ qRepr result.operand_b ++
    "\n- Result: " ++ qRepr result.result

/-- `CalculatorToolHandler.execute`: validate, delegate to the service,
format; `ValueError` (pydantic validation and math domain errors),
`ZeroDivisionError` and any other exception are caught and turned into a
text block. -/
def CalculatorToolHandler.execute (arguments : List (String × JValue)) :
    List TextContent :=
  match parseCalculatorInput arguments with
  | .error e => [⟨"text", "❌ Validation Error: " ++ e⟩]
  | .ok input_data =>
    match CalculatorService.calculate input_data with
    | .ok result =>
        [⟨"text", CalculatorToolHandler._format_response result⟩]
    | .error (.valueError m) =>
        [⟨"text", "❌ Validation Error: " ++ m⟩]
    | .error (.zeroDivisionError _) =>
        [⟨"text", "❌ Error: Cannot divide by zero"⟩]
    | .error (.overflowError m) =>
        [⟨"text", "❌ Internal Error: " ++ m⟩]

/-- Result of the legacy `perform_calculation` in
`src/handlers/tool_handler.py`: a float, which its divide branch can set
to `float(\x27inf\x27)`. -/
inductive PCValue where
  | num (q : Q)
  | inf
deriving DecidableEq

/-- The legacy `perform_calculation(operation, a, b)` of
`src/handlers/tool_handler.py`: a four-entry lambda table; divide yields
`x / y if y != 0 else float(\x27inf\x27)`; an unknown operation (modulo
included) is a `KeyError`, modelled as `none`. -/
def perform_calculation (operation : String) (a b : Q) : Option PCValue :=
  match operation with
  | "add" => some (.num (a.add b))
  | "subtract" => some (.num (a.sub b))
  | "multiply" => some (.num (a.mul b))
  | "divide" => some (if b.num ≠ 0 then .num (a.div b) else .inf)
  | _ => none

/-- A `Tool` definition advertised to the client: name, description (the
pydantic-generated `inputSchema` carries no claim-relevant structure and is
not modelled). -/
structure Tool where
  name : String
  description : String
deriving DecidableEq

/-- A registered tool handler as the registry sees it: its `get_name()`
and `get_tool_definition()`.  (`execute` is dispatched by the server
adapter, not consulted by the registry; the two concrete `execute`
implementations are modelled standalone above and below.) -/
structure ToolHandler where
  get_name : String
  get_tool_definition : Tool
deriving DecidableEq

/-- `ToolRegistry`: the insertion-ordered `name -> handler` dict. -/
structure ToolRegistry where
  handlers : List (String × ToolHandler)
deriving DecidableEq

/-- `ToolRegistry.__init__`: the empty registry. -/
def ToolRegistry.new : ToolRegistry := ⟨[]⟩

/-- The registered names, in registration order (`self.handlers.keys()`). -/
def ToolRegistry.names (r : ToolRegistry) : List String :=
  r.handlers.map Prod.fst

/-- `ToolRegistry.register`: fail with a duplicate-tool `ValueError` when
the name is already present, otherwise append the binding. -/
def ToolRegistry.register (r : ToolRegistry) (handler : ToolHandler) :
    Except String ToolRegistry :=
  let name := handler.get_name
  if name ∈ r.names then
    Except.error ("Tool \x27" ++ name ++ "\x27 already registered")
  else
    Except.ok ⟨r.handlers ++ [(name, handler)]⟩

/-- `ToolRegistry.get_all_tools`: the tool definitions of all registered
handlers, in registration order. -/
def ToolRegistry.get_all_tools (r : ToolRegistry) : List Tool :=
  r.handlers.map (fun p => p.2.get_tool_definition)

/-- The unknown-tool error message: it enumerates the currently registered
names (`", ".join(self.handlers.keys())`). -/
def unknownToolMessage (name : String) (names : List String) : String :=
  "Unknown tool: \x27" ++ name ++ "\x27. Available tools: " ++
    String.intercalate ", " names

/-- `ToolRegistry.get_handler`: the handler stored under `name`, or the
unknown-tool `ValueError` (dict membership plus indexing is the first -
and only - binding, modelled by `List.lookup`). -/
def ToolRegistry.get_handler (r : ToolRegistry) (name : String) :
    Except String ToolHandler :=
  match r.handlers.lookup name with
  | some handler => Except.ok handler
  | none => Except.error (unknownToolMessage name r.names)

/-- `ToolRegistry.list_tool_names`. -/
def ToolRegistry.list_tool_names (r : ToolRegistry) : List String :=
  r.names

/-- Registering a list of handlers in order, stopping at the first
failure (the startup sequence of `setup_tools`). -/
def registerAll (r : ToolRegistry) : List ToolHandler →
    Except String ToolRegistry
  | [] => Except.ok r
  | h :: rest =>
      match r.register h with
      | .ok r2 => registerAll r2 rest
      | .error e => Except.error e

/-- Key uniqueness: the invariant of every registry reachable from
`ToolRegistry.new` through `register`. -/
def ToolRegistry.Wf (r : ToolRegistry) : Prop := r.names.Nodup

/-- The `CalculatorToolHandler` as registered: name and definition from
`get_name` / `get_tool_definition` in `src/tools/calculator_handler.py`. -/
def calculatorToolHandler : ToolHandler :=
  ⟨"calculate",
   ⟨"calculate",
    "Perform basic arithmetic operations: addition, subtraction, " ++
      "multiplication, division, power, and modulo. " ++
      "Supports decimal precision control."⟩⟩

/-- The `ExpenseTrackerToolHandler` as registered: name and definition
from `get_name` / `get_tool_definition` in `src/tools/exptrac_handler.py`. -/
def expenseTrackerToolHandler : ToolHandler :=
  ⟨"expense_tracker",
   ⟨"expense_tracker",
    "Manage expenses and expense types. Supports creating expenses, " ++
      "retrieving all expenses, filtering expenses by type, creating " ++
      "expense types, and retrieving all types. " ++
      "Actions: create_expense, get_all_expenses, get_expenses_by_type, " ++
      "create_type, get_all_types"⟩⟩

/-- `ExpenseActionType` enum from `src/models/expense_models.py`. -/
inductive ExpenseActionType where
  | create_expense
  | get_all_expenses
  | get_expenses_by_type
  | create_type
  | get_all_types
deriving DecidableEq

/-- The `.value` of each `ExpenseActionType` member. -/
def ExpenseActionType.value : ExpenseActionType → String
  | .create_expense => "create_expense"
  | .get_all_expenses => "get_all_expenses"
  | .get_expenses_by_type => "get_expenses_by_type"
  | .create_type => "create_type"
  | .get_all_types => "get_all_types"

/-- Parsing a raw string into an `ExpenseActionType` member. -/
def ExpenseActionType.ofString? : String → Option ExpenseActionType
  | "create_expense" => some .create_expense
  | "get_all_expenses" => some .get_all_expenses
  | "get_expenses_by_type" => some .get_expenses_by_type
  | "create_type" => some .create_type
  | "get_all_types" => some .get_all_types
  | _ => none

/-- `ExpenseTrackerInput` after pydantic validation: required action,
all other fields optional. -/
structure ExpenseTrackerInput where
  action : ExpenseActionType
  itemName : Option String
  itemCost : Option ℤ
  itemType : Option String
  itemNote : Option String
  typeId : Option ℤ
  typeName : Option String
deriving DecidableEq

/-- `ExpenseTrackerOutput`: the normalized outcome
`{action, success, message, data}`; `data` is `Optional[dict]`, modelled
as an optional list of string-keyed JSON fields. -/
structure ExpenseTrackerOutput where
  action : String
  success : Bool
  message : String
  data : Option (List (String × JValue))

/-- The pydantic construction `ExpenseTrackerOutput(action=..., ...,
data=...)`: since `data` is typed `Optional[dict]`, passing a parsed
JSON payload that is not a dict (a list, string, number, ...) raises
`ValidationError` - a `ValueError` subclass - out of the constructor. -/
def mkExpenseTrackerOutput (action : String) (success : Bool)
    (message : String) (data : Option JValue) :
    Except PyError ExpenseTrackerOutput :=
  match data with
  | none => Except.ok ⟨action, success, message, none⟩
  | some (.obj fields) => Except.ok ⟨action, success, message, some fields⟩
  | some _ =>
      Except.error (.valueError "data: Input should be a valid dictionary")

/-- One HTTP exchange with the remote expense service, as the proxy
client observes it: either a response with a status code and an
(already parsed) JSON body, or a connection-level `httpx.RequestError`. -/
inductive HttpResult where
  | resp (status : ℕ) (body : JValue)
  | reqError (msg : String)

/-- `ExpenseTrackerService._create_expense`: missing required fields fail
before any network call; 200/201 builds a success outcome carrying the
parsed body as `data` - which, `data` being `Optional[dict]`, raises a
`ValidationError` (re-raised by the catch-all `except Exception: raise`)
when the body is not a dict; any other status yields failure with the
status code in the message; a request error yields a network-error
failure. -/
def ExpenseTrackerService._create_expense (env : HttpResult)
    (input_data : ExpenseTrackerInput) :
    Except PyError ExpenseTrackerOutput :=
  if input_data.itemName = none ∨ input_data.itemCost = none ∨
      input_data.itemType = none then
    Except.ok
      { action := input_data.action.value
        success := false
        message := "Missing required fields: itemName, itemCost, and itemType"
        data := none }
  else
    match env with
    | .resp status body =>
        if status = 200 ∨ status = 201 then
          mkExpenseTrackerOutput input_data.action.value true
            "Expense created successfully" (some body)
        else
          Except.ok
            { action := input_data.action.value
              success := false
              message := "Failed to create expense: " ++ Nat.repr status
              data := none }
    | .reqError m =>
        Except.ok
          { action := input_data.action.value
            success := false
            message := "Network error: " ++ m
            data := none }

/-- `{"expenses": data if isinstance(data, list) else [data]}`: always a
dict, so the output construction cannot fail. -/
def wrapExpenses (body : JValue) : List (String × JValue) :=
  match body with
  | .arr elems => [("expenses", .arr elems)]
  | v => [("expenses", .arr [v])]

/-- `{"types": data if isinstance(data, list) else [data]}`: always a
dict, so the output construction cannot fail. -/
def wrapTypes (body : JValue) : List (String × JValue) :=
  match body with
  | .arr elems => [("types", .arr elems)]
  | v => [("types", .arr [v])]

/-- `ExpenseTrackerService._get_all_expenses`: the `data` payload is the
always-a-dict wrapping, so the outcome construction cannot fail. -/
def ExpenseTrackerService._get_all_expenses (env : HttpResult) :
    Except PyError ExpenseTrackerOutput :=
  match env with
  | .resp status body =>
      if status = 200 then
        Except.ok
          { action := ExpenseActionType.get_all_expenses.value
            success := true
            message := "Expenses retrieved successfully"
            data := some (wrapExpenses body) }
      else
        Except.ok
          { action := ExpenseActionType.get_all_expenses.value
            success := false
            message := "Failed to retrieve expenses: " ++ Nat.repr status
            data := none }
  | .reqError m =>
      Except.ok
        { action := ExpenseActionType.get_all_expenses.value
          success := false
          message := "Network error: " ++ m
          data := none }

/-- `ExpenseTrackerService._get_expenses_by_type`. -/
def ExpenseTrackerService._get_expenses_by_type (env : HttpResult)
    (input_data : ExpenseTrackerInput) :
    Except PyError ExpenseTrackerOutput :=
  match input_data.typeId with
  | none =>
      Except.ok
        { action := input_data.action.value
          success := false
          message := "Missing required field: typeId"
          data := none }
  | some typeId =>
      match env with
      | .resp status body =>
          if status = 200 then
            Except.ok
              { action := input_data.action.value
                success := true
                message := "Expenses for type " ++ Int.repr typeId ++
                  " retrieved successfully"
                data := some (wrapExpenses body) }
          else
            Except.ok
              { action := input_data.action.value
                success := false
                message := "Failed to retrieve expenses: " ++ Nat.repr status
                data := none }
      | .reqError m =>
          Except.ok
            { action := input_data.action.value
              success := false
              message := "Network error: " ++ m
              data := none }

/-- `ExpenseTrackerService._create_type`: like `_create_expense`, the
success branch passes the raw parsed body as `data`, so a non-dict body
raises a `ValidationError` out of the function. -/
def ExpenseTrackerService._create_type (env : HttpResult)
    (input_data : ExpenseTrackerInput) :
    Except PyError ExpenseTrackerOutput :=
  match input_data.typeName with
  | none =>
      Except.ok
        { action := input_data.action.value
          success := false
          message := "Missing required field: typeName"
          data := none }
  | some _ =>
      match env with
      | .resp status body =>
          if status = 200 ∨ status = 201 then
            mkExpenseTrackerOutput input_data.action.value true
              "Type created successfully" (some body)
          else
            Except.ok
              { action := input_data.action.value
                success := false
                message := "Failed to create type: " ++ Nat.repr status
                data := none }
      | .reqError m =>
          Except.ok
            { action := input_data.action.value
              success := false
              message := "Network error: " ++ m
              data := none }

/-- `ExpenseTrackerService._get_all_types`. -/
def ExpenseTrackerService._get_all_types (env : HttpResult) :
    Except PyError ExpenseTrackerOutput :=
  match env with
  | .resp status body =>
      if status = 200 then
        Except.ok
          { action := ExpenseActionType.get_all_types.value
            success := true
            message := "Types retrieved successfully"
            data := some (wrapTypes body) }
      else
        Except.ok
          { action := ExpenseActionType.get_all_types.value
            success := false
            message := "Failed to retrieve types: " ++ Nat.repr status
            data := none }
  | .reqError m =>
      Except.ok
        { action := ExpenseActionType.get_all_types.value
          success := false
          message := "Network error: " ++ m
          data := none }

/-- `ExpenseTrackerService.handle_action`: route per action; its own
try/except logs and re-raises, so errors propagate.  The source function
makes at most one HTTP call per invocation, so the environment is the
result of that one call.  (The `Unknown action` fallback of the source
is unreachable over the five enum members.) -/
def ExpenseTrackerService.handle_action (env : HttpResult)
    (input_data : ExpenseTrackerInput) :
    Except PyError ExpenseTrackerOutput :=
  match input_data.action with
  | .create_expense => ExpenseTrackerService._create_expense env input_data
  | .get_all_expenses => ExpenseTrackerService._get_all_expenses env
  | .get_expenses_by_type =>
      ExpenseTrackerService._get_expenses_by_type env input_data
  | .create_type => ExpenseTrackerService._create_type env input_data
  | .get_all_types => ExpenseTrackerService._get_all_types env

/-- Optional string field of the raw arguments. -/
def optStrField (arguments : List (String × JValue)) (key : String) :
    Except String (Option String) :=
  match arguments.lookup key with
  | none => Except.ok none
  | some .null => Except.ok none
  | some (.str s) => Except.ok (some s)
  | some _ => Except.error (key ++ ": value is not a valid string")

/-- Optional integer field of the raw arguments. -/
def optIntField (arguments : List (String × JValue)) (key : String) :
    Except String (Option ℤ) :=
  match arguments.lookup key with
  | none => Except.ok none
  | some .null => Except.ok none
  | some (.num q) =>
      let q := q.norm
      if q.den = 1 then Except.ok (some q.num)
      else Except.error (key ++ ": value is not a valid integer")
  | some _ => Except.error (key ++ ": value is not a valid integer")

/-- Pydantic construction `ExpenseTrackerInput(**arguments)`. -/
def parseExpenseTrackerInput (arguments : List (String × JValue)) :
    Except String ExpenseTrackerInput := do
  let action ←
    match arguments.lookup "action" with
    | some (.str s) =>
        match ExpenseActionType.ofString? s with
        | some a => Except.ok a
        | none =>
            Except.error "action: value is not a valid enumeration member"
    | some _ =>
        Except.error "action: value is not a valid enumeration member"
    | none => Except.error "action: field required"
  let itemName ← optStrField arguments "itemName"
  let itemCost ← optIntField arguments "itemCost"
  let itemType ← optStrField arguments "itemType"
  let itemNote ← optStrField arguments "itemNote"
  let typeId ← optIntField arguments "typeId"
  let typeName ← optStrField arguments "typeName"
  Except.ok
    { action := action, itemName := itemName, itemCost := itemCost
      itemType := itemType, itemNote := itemNote, typeId := typeId
      typeName := typeName }

mutual

/-- Compact JSON rendering of a value (the source pretty-prints with
`json.dumps(..., indent=2)`; no claim compares the rendering to a
literal). -/
def JValue.render : JValue → String
  | .null => "null"
  | .bool true => "true"
  | .bool false => "false"
  | .num q => qRepr q
  | .str s => "\"" ++ s ++ "\""
  | .arr elems => "[" ++ JValue.renderElems elems ++ "]"
  | .obj fields => "\x7b" ++ JValue.renderFields fields ++ "\x7d"

def JValue.renderElems : List JValue → String
  | [] => ""
  | [v] => JValue.render v
  | v :: rest => JValue.render v ++ ", " ++ JValue.renderElems rest

def JValue.renderFields : List (String × JValue) → String
  | [] => ""
  | [(k, v)] => "\"" ++ k ++ "\": " ++ JValue.render v
  | (k, v) :: rest =>
      "\"" ++ k ++ "\": " ++ JValue.render v ++ ", " ++
        JValue.renderFields rest

end

/-- `ExpenseTrackerToolHandler._format_response` (`if result.data:` is
Python truthiness: `None` and the empty dict are falsy). -/
def ExpenseTrackerToolHandler._format_response
    (result : ExpenseTrackerOutput) : String :=
  let status_icon := if result.success then "✅" else "❌"
  let response := status_icon ++ " " ++ result.message ++ "\n\n"
  match result.data with
  | some fields =>
      if fields.isEmpty then response
      else
        response ++ "Data:\n```json\n" ++ (JValue.obj fields).render ++
          "\n```"
  | none => response

/-- `ExpenseTrackerToolHandler.execute`: validate, delegate to the
service, format.  Its except chain is `except ValueError` (pydantic
validation errors, the outcome-construction `ValidationError` included)
then `except Exception`, so every error terminates in a text block. -/
def ExpenseTrackerToolHandler.execute (env : HttpResult)
    (arguments : List (String × JValue)) : List TextContent :=
  match parseExpenseTrackerInput arguments with
  | .error e => [⟨"text", "❌ Validation Error: " ++ e⟩]
  | .ok input_data =>
      match ExpenseTrackerService.handle_action env input_data with
      | .ok result =>
          [⟨"text", ExpenseTrackerToolHandler._format_response result⟩]
      | .error (.valueError m) =>
          [⟨"text", "❌ Validation Error: " ++ m⟩]
      | .error (.zeroDivisionError m) =>
          [⟨"text", "❌ Internal Error: " ++ m⟩]
      | .error (.overflowError m) =>
          [⟨"text", "❌ Internal Error: " ++ m⟩]

/-- A hypothetical extra handler (the `WeatherToolHandler` the source
comments out), used to exercise registration of a fresh name. -/
def weatherToolHandler : ToolHandler :=
  ⟨"weather", ⟨"weather", "Get weather information"⟩⟩

/-- The registry as `setup_tools` would build it with both concrete
handlers registered, calculator first. -/
def demoRegistry : ToolRegistry :=
  ⟨[("calculate", calculatorToolHandler),
    ("expense_tracker", expenseTrackerToolHandler)]⟩

/-- `demoRegistry` with `weatherToolHandler` registered as well. -/
def demoRegistryW : ToolRegistry :=
  ⟨[("calculate", calculatorToolHandler),
    ("expense_tracker", expenseTrackerToolHandler),
    ("weather", weatherToolHandler)]⟩

/-- A hypothetical handler whose name is the empty string. -/
def emptyNameHandler : ToolHandler :=
  ⟨"", ⟨"", "a hypothetical handler whose name is the empty string"⟩⟩

/-- The registry holding only `emptyNameHandler`. -/
def emptyNameRegistry : ToolRegistry := ⟨[("", emptyNameHandler)]⟩

/-- A fully-populated create-expense input. -/
def demoExpenseInput : ExpenseTrackerInput :=
  { action := .create_expense
    itemName := some "Groceries"
    itemCost := some 5000
    itemType := some "Food"
    itemNote := none
    typeId := none
    typeName := none }

/-- The fields of a parsed dict response body as the remote service
would return it. -/
def demoBodyFields : List (String × JValue) :=
  [("itemId", .num 1), ("itemName", .str "Groceries"),
   ("itemCost", .num 5000)]

/-- A parsed response body as the remote service would return it. -/
def demoBody : JValue := .obj demoBodyFields

/-! ### Bridge lemmas: the computable rationals mean what they say in `ℚ` -/

theorem Q.den_pos (a : Q) : 0 < (a.den : ℚ) := by
  unfold Q.den
  exact_mod_cast Nat.succ_pos a.dpred

theorem Q.lt_iff_toRat (a b : Q) : Q.Lt a b ↔ a.toRat < b.toRat := by
  unfold Q.Lt Q.toRat
  rw [div_lt_div_iff₀ (Q.den_pos a) (Q.den_pos b)]
  constructor <;> intro h <;> exact_mod_cast h

theorem Q.abs_toRat (a : Q) : a.abs.toRat = |a.toRat| := by
  unfold Q.abs Q.toRat
  rw [abs_div]
  show ((|a.num| : ℤ) : ℚ) / _ = _ / _
  rw [Int.cast_abs]
  congr 1
  exact (abs_of_pos (Q.den_pos a)).symm

theorem Q.toRat_ofNat (n : ℕ) : (⟨(n : ℤ), 0⟩ : Q).toRat = n := by
  unfold Q.toRat Q.den
  norm_num

/-! ### Association-list lemmas for the registry dict -/

theorem lookup_eq_none_of_not_mem (l : List (String × ToolHandler))
    (name : String) (hn : name ∉ l.map Prod.fst) : l.lookup name = none := by
  induction l with
  | nil => rfl
  | cons p rest ih =>
      obtain ⟨k, v⟩ := p
      simp only [List.map_cons, List.mem_cons, not_or] at hn
      simp only [List.lookup, beq_eq_false_iff_ne.mpr hn.1]
      exact ih hn.2

theorem lookup_of_mem_of_nodup (l : List (String × ToolHandler))
    (name : String) (h : ToolHandler) (hnd : (l.map Prod.fst).Nodup)
    (hm : (name, h) ∈ l) : l.lookup name = some h := by
  induction l with
  | nil => cases hm
  | cons p rest ih =>
      obtain ⟨k, v⟩ := p
      simp only [List.map_cons, List.nodup_cons] at hnd
      rcases List.mem_cons.mp hm with heq | hmem
      · obtain ⟨h1, h2⟩ := Prod.mk.injEq .. ▸ heq
        subst h1; subst h2
        simp [List.lookup]
      · have hk : name ≠ k := by
          intro e
          subst e
          exact hnd.1 (List.mem_map.mpr ⟨(name, h), hmem, rfl⟩)
        simp only [List.lookup, beq_eq_false_iff_ne.mpr hk]
        exact ih hnd.2 hmem

theorem lookup_append_left (l1 l2 : List (String × ToolHandler))
    (name : String) (h : ToolHandler) (hm : l1.lookup name = some h) :
    (l1 ++ l2).lookup name = some h := by
  induction l1 with
  | nil => simp [List.lookup] at hm
  | cons p rest ih =>
      obtain ⟨k, v⟩ := p
      by_cases hk : name = k
      · subst hk
        simp only [List.lookup, beq_self_eq_true] at hm ⊢
        exact hm
      · simp only [List.cons_append, List.lookup,
          beq_eq_false_iff_ne.mpr hk] at hm ⊢
        exact ih hm

/-! ### Registration-sequence lemmas -/

theorem register_ok_handlers (r r2 : ToolRegistry) (h : ToolHandler)
    (hreg : r.register h = Except.ok r2) :
    h.get_name ∉ r.names ∧ r2.handlers = r.handlers ++ [(h.get_name, h)] := by
  unfold ToolRegistry.register at hreg
  by_cases hm : h.get_name ∈ r.names
  · simp [hm] at hreg
  · simp only [hm, if_false, Except.ok.injEq] at hreg
    exact ⟨hm, by rw [← hreg]⟩

theorem registerAll_handlers (hs : List ToolHandler) :
    ∀ r r2 : ToolRegistry, registerAll r hs = Except.ok r2 →
      r2.handlers = r.handlers ++ hs.map (fun h => (h.get_name, h)) := by
  induction hs with
  | nil =>
      intro r r2 hreg
      simp only [registerAll, Except.ok.injEq] at hreg
      simp [hreg]
  | cons hd tl ih =>
      intro r r2 hreg
      unfold registerAll at hreg
      cases hr : r.register hd with
      | error e => rw [hr] at hreg; cases hreg
      | ok rmid =>
          rw [hr] at hreg
          have h2 : registerAll rmid tl = Except.ok r2 := hreg
          have hmid := (register_ok_handlers r rmid hd hr).2
          rw [ih rmid r2 h2, hmid]
          simp

/-! ### Claim theorems -/

/-- C1: On a registry with unique names (the invariant every reachable
registry satisfies), resolving the name of any stored binding returns
exactly that handler, and resolving any unregistered name fails with the
error message enumerating all currently registered names and never
returns a handler. -/
theorem get_handler_resolves_registered_and_rejects_unknown
    (r : ToolRegistry) (hwf : r.Wf) :
    (∀ p ∈ r.handlers, r.get_handler p.1 = Except.ok p.2) ∧
    (∀ name, name ∉ r.names →
      r.get_handler name = Except.error (unknownToolMessage name r.names) ∧
      ∀ h, r.get_handler name ≠ Except.ok h) := by
  constructor
  · intro p hp
    have hlk := lookup_of_mem_of_nodup r.handlers p.1 p.2 hwf
      (by rwa [Prod.mk.eta])
    simp [ToolRegistry.get_handler, hlk]
  · intro name hn
    have hlk := lookup_eq_none_of_not_mem r.handlers name hn
    refine ⟨by simp [ToolRegistry.get_handler, hlk], ?_⟩
    intro h hc
    simp [ToolRegistry.get_handler, hlk] at hc

/-- C1 witness: on the concrete two-handler registry, "calculate"
resolves to the calculator handler and "weather" fails with the
enumerating message. -/
theorem get_handler_witness :
    demoRegistry.get_handler "calculate" = Except.ok calculatorToolHandler ∧
    demoRegistry.get_handler "weather" =
      Except.error
        "Unknown tool: \x27weather\x27. Available tools: calculate, expense_tracker" := by
  have h := get_handler_resolves_registered_and_rejects_unknown demoRegistry
    (by unfold ToolRegistry.Wf; decide)
  exact ⟨h.1 ("calculate", calculatorToolHandler) (by decide),
    (h.2 "weather" (by decide)).1⟩

/-- C2: registering a handler under an already-registered name fails
with the duplicate-tool error; the registry is unchanged, so the first
registration remains resolvable; and no successful registration of any
handler overwrites an existing binding. -/
theorem register_duplicate_rejected_no_overwrite (r : ToolRegistry)
    (h : ToolHandler) (hwf : r.Wf) (hdup : h.get_name ∈ r.names) :
    r.register h =
      Except.error ("Tool \x27" ++ h.get_name ++ "\x27 already registered") ∧
    (∀ h0, (h.get_name, h0) ∈ r.handlers →
      r.get_handler h.get_name = Except.ok h0) ∧
    (∀ g r2, r.register g = Except.ok r2 →
      ∀ name h0, (name, h0) ∈ r.handlers →
        r2.get_handler name = Except.ok h0) := by
  refine ⟨by simp [ToolRegistry.register, hdup], ?_, ?_⟩
  · intro h0 hm
    have hlk := lookup_of_mem_of_nodup r.handlers h.get_name h0 hwf hm
    simp [ToolRegistry.get_handler, hlk]
  · intro g r2 hreg name h0 hm
    have hg := register_ok_handlers r r2 g hreg
    have hlk := lookup_of_mem_of_nodup r.handlers name h0 hwf hm
    have hlk2 := lookup_append_left r.handlers [(g.get_name, g)] name h0 hlk
    rw [← hg.2] at hlk2
    simp [ToolRegistry.get_handler, hlk2]

/-- C2 witness: on the concrete registry, re-registering a handler named
"calculate" fails with the duplicate error, "calculate" still resolves to
the first handler, and after successfully registering the fresh "weather"
handler the old binding still resolves. -/
theorem register_duplicate_witness :
    demoRegistry.register calculatorToolHandler =
      Except.error ("Tool \x27" ++ "calculate" ++ "\x27 already registered") ∧
    demoRegistry.get_handler "calculate" = Except.ok calculatorToolHandler ∧
    demoRegistryW.get_handler "calculate" = Except.ok calculatorToolHandler := by
  have h := register_duplicate_rejected_no_overwrite demoRegistry
    calculatorToolHandler (by unfold ToolRegistry.Wf; decide) (by decide)
  exact ⟨h.1,
    h.2.1 calculatorToolHandler (by decide),
    h.2.2 weatherToolHandler demoRegistryW rfl "calculate"
      calculatorToolHandler (by decide)⟩

/-- C3: after any sequence of successful registrations starting from the
empty registry, listing all tool definitions returns the definitions of
exactly the registered handlers in registration order; the empty registry
yields the empty sequence (and, the function being pure and total, it
never fails and consecutive calls agree). -/
theorem get_all_tools_in_registration_order (hs : List ToolHandler)
    (r2 : ToolRegistry)
    (hreg : registerAll ToolRegistry.new hs = Except.ok r2) :
    r2.get_all_tools = hs.map ToolHandler.get_tool_definition ∧
    ToolRegistry.new.get_all_tools = [] := by
  constructor
  · unfold ToolRegistry.get_all_tools
    rw [registerAll_handlers hs ToolRegistry.new r2 hreg]
    simp [ToolRegistry.new]
  · rfl

/-- C3 witness: registering the two concrete handlers in order yields
exactly their two definitions in that order. -/
theorem get_all_tools_witness :
    demoRegistry.get_all_tools =
      [calculatorToolHandler.get_tool_definition,
       expenseTrackerToolHandler.get_tool_definition] ∧
    ToolRegistry.new.get_all_tools = [] := by
  have h := get_all_tools_in_registration_order
    [calculatorToolHandler, expenseTrackerToolHandler] demoRegistry rfl
  exact ⟨h.1, h.2⟩

/-- C10: registration fails exactly when the handler's name is already
registered - no other property of the name is checked - so a handler
whose name is the empty string is accepted, stored, resolvable and
discoverable like any other handler. -/
theorem register_checks_only_name_membership :
    (∀ (r : ToolRegistry) (h : ToolHandler),
      (r.register h).isOk = true ↔ h.get_name ∉ r.names) ∧
    ToolRegistry.new.register emptyNameHandler =
      Except.ok emptyNameRegistry ∧
    emptyNameRegistry.get_handler "" = Except.ok emptyNameHandler ∧
    emptyNameRegistry.get_all_tools =
      [emptyNameHandler.get_tool_definition] ∧
    emptyNameRegistry.list_tool_names = [""] := by
  refine ⟨?_, rfl, rfl, rfl, rfl⟩
  intro r h
  by_cases hm : h.get_name ∈ r.names <;>
    simp [ToolRegistry.register, hm, Except.isOk, Except.toBool]

/-- C4: both handlers' `execute` are total functions returning exactly one
text content block on every raw-argument mapping (and, for the expense
handler, every outcome of the remote call): validation failures, division
errors and unexpected errors all terminate in a formatted text block, and
no exception propagates outward. -/
theorem execute_always_returns_one_text_block :
    (∀ arguments, (CalculatorToolHandler.execute arguments).length = 1) ∧
    (∀ env arguments,
      (ExpenseTrackerToolHandler.execute env arguments).length = 1) := by
  constructor
  · intro arguments
    unfold CalculatorToolHandler.execute
    split
    · rfl
    · split <;> rfl
  · intro env arguments
    unfold ExpenseTrackerToolHandler.execute
    split
    · rfl
    · split <;> rfl

/-- C5: through the validated model path, constructing a divide or modulo
input with `b = 0` fails validation (so `calculate` never runs), while the
legacy `perform_calculation` path in `src/handlers/tool_handler.py`
silently turns division by zero into `float(\x27inf\x27)` - a numeric
result - contradicting the claim on that cited path. -/
theorem divide_by_zero_rejected_but_legacy_path_yields_inf :
    perform_calculation "divide" 100 0 = some PCValue.inf ∧
    validate_division_by_zero Operation.divide 0 =
      Except.error "Cannot divide by zero" ∧
    validate_division_by_zero Operation.modulo 0 =
      Except.error "Cannot perform modulo with zero divisor" ∧
    (parseCalculatorInput
        [("operation", .str "divide"), ("a", .num 100),
         ("b", .num 0)]).isOk = false ∧
    (parseCalculatorInput
        [("operation", .str "modulo"), ("a", .num 100),
         ("b", .num 0)]).isOk = false :=
  ⟨rfl, rfl, rfl, rfl, rfl⟩

/-- C6 counterexample: a create-expense call whose 200 response has a
parsed body that is a JSON array rather than a dict does not yield a
success outcome with `data` equal to the body: the `ExpenseTrackerOutput`
construction raises a `ValidationError` (`data` is `Optional[dict]`),
which the `except Exception: raise` lets cross the proxy-client boundary,
so the claim as stated is false. -/
theorem create_expense_nondict_body_escapes :
    ExpenseTrackerService._create_expense (.resp 200 (.arr [demoBody]))
        demoExpenseInput =
      Except.error
        (.valueError "data: Input should be a valid dictionary") ∧
    (ExpenseTrackerService._create_expense (.resp 200 (.arr [demoBody]))
        demoExpenseInput).isOk = false :=
  ⟨rfl, rfl⟩

/-- C6 (amended): for a create-expense input with all required fields
present, a 200/201 response whose parsed body is a dict yields
`success = true` with `data` equal to that body (a non-dict body instead
raises a `ValidationError` out of the proxy client); any other status
yields `success = false` with the status code embedded in the message;
a connection-level failure yields `success = false` with a network-error
message; in the non-2xx and connection-failure cases no exception crosses
the boundary. -/
theorem create_expense_outcomes (input_data : ExpenseTrackerInput)
    (hname : input_data.itemName ≠ none)
    (hcost : input_data.itemCost ≠ none)
    (htype : input_data.itemType ≠ none) :
    (∀ status fields, status = 200 ∨ status = 201 →
      ExpenseTrackerService._create_expense (.resp status (.obj fields))
          input_data =
        Except.ok
          { action := input_data.action.value, success := true,
            message := "Expense created successfully",
            data := some fields }) ∧
    (∀ status body, status ≠ 200 → status ≠ 201 →
      ExpenseTrackerService._create_expense (.resp status body) input_data =
        Except.ok
          { action := input_data.action.value, success := false,
            message := "Failed to create expense: " ++ Nat.repr status,
            data := none }) ∧
    (∀ m, ExpenseTrackerService._create_expense (.reqError m) input_data =
      Except.ok
        { action := input_data.action.value, success := false,
          message := "Network error: " ++ m, data := none }) := by
  have hreq : ¬(input_data.itemName = none ∨ input_data.itemCost = none ∨
      input_data.itemType = none) := by
    push_neg
    exact ⟨hname, hcost, htype⟩
  refine ⟨?_, ?_, ?_⟩
  · intro status fields hst
    simp [ExpenseTrackerService._create_expense, hreq, hst,
      mkExpenseTrackerOutput]
  · intro status body h200 h201
    simp [ExpenseTrackerService._create_expense, hreq, h200, h201]
  · intro m
    simp [ExpenseTrackerService._create_expense, hreq]

/-- C6 witness: the three outcomes at a concrete input - a 201 response
with a concrete parsed dict body, a 500 response, and a connection
error. -/
theorem create_expense_outcomes_witness :
    ExpenseTrackerService._create_expense (.resp 201 (.obj demoBodyFields))
        demoExpenseInput =
      Except.ok
        { action := "create_expense", success := true,
          message := "Expense created successfully",
          data := some demoBodyFields } ∧
    ExpenseTrackerService._create_expense (.resp 500 demoBody)
        demoExpenseInput =
      Except.ok
        { action := "create_expense", success := false,
          message := "Failed to create expense: " ++ Nat.repr 500,
          data := none } ∧
    ExpenseTrackerService._create_expense (.reqError "Connection refused")
        demoExpenseInput =
      Except.ok
        { action := "create_expense", success := false,
          message := "Network error: Connection refused", data := none } := by
  have h := create_expense_outcomes demoExpenseInput (by decide) (by decide)
    (by decide)
  exact ⟨h.1 201 demoBodyFields (Or.inr rfl),
    h.2.1 500 demoBody (by decide) (by decide),
    h.2.2 "Connection refused"⟩

/-- C7 counterexample: at the boundary `a = 1000, b = 1000` the power
validator accepts the input, but `calculate` does not produce a result:
`math.pow(1000.0, 1000.0)` overflows the double range and the call ends
in an `OverflowError` (surfaced by the handler as an internal error), so
the claim that `calculate` succeeds at the boundary is false. -/
theorem power_boundary_does_not_produce_result :
    validate_power_limits .power 1000 1000 = Except.ok 1000 ∧
    CalculatorService.calculate
        { operation := .power, a := 1000, b := 1000, precision := 2 } =
      Except.error (.overflowError "math range error") :=
  ⟨rfl, rfl⟩

/-- C7 (amended): power fails validation whenever `|a| > 1000` or
`|b| > 1000`, and validation accepts everything with `|a| ≤ 1000` and
`|b| ≤ 1000`, the boundary included; at the boundary the computation
itself produces a result only when it stays within the double range
(exponent `-1000`: underflow, a result), while base and exponent `1000`
overflow into an error rather than a numeric result. -/
theorem power_limits_validation (a b : Q) :
    (1000 < |a.toRat| ∨ 1000 < |b.toRat| →
      validate_power_limits .power a b =
        Except.error
          "Power operation limited to bases and exponents within ±1000") ∧
    (|a.toRat| ≤ 1000 → |b.toRat| ≤ 1000 →
      validate_power_limits .power a b = Except.ok b) ∧
    (CalculatorService.calculate
        { operation := .power, a := 1000, b := -1000, precision := 2 }).isOk
      = true ∧
    (CalculatorService.calculate
        { operation := .power, a := -1000, b := 1000, precision := 2 }).isOk
      = false := by
  have habs (x : Q) : Q.Lt 1000 x.abs ↔ 1000 < |x.toRat| := by
    rw [Q.lt_iff_toRat, Q.abs_toRat]
    have h1000 : ((1000 : Q)).toRat = 1000 := by
      show (⟨1000, 0⟩ : Q).toRat = 1000
      norm_num [Q.toRat, Q.den]
    rw [h1000]
  refine ⟨?_, ?_, rfl, rfl⟩
  · intro hgt
    unfold validate_power_limits
    rw [if_pos]
    exact ⟨rfl, by
      rcases hgt with h | h
      · exact Or.inl ((habs a).mpr h)
      · exact Or.inr ((habs b).mpr h)⟩
  · intro ha hb
    unfold validate_power_limits
    rw [if_neg]
    rintro ⟨-, hor⟩
    rcases hor with h | h
    · exact absurd ((habs a).mp h) (not_lt.mpr ha)
    · exact absurd ((habs b).mp h) (not_lt.mpr hb)

/-- C7 witness: the validator rejects `a = 2000` and accepts the boundary
`a = 1000, b = 1000` (for which the overflow behaviour is recorded in the
accompanying boundary theorem). -/
theorem power_limits_validation_witness :
    validate_power_limits .power 2000 5 =
      Except.error
        "Power operation limited to bases and exponents within ±1000" ∧
    validate_power_limits .power 1000 1000 = Except.ok 1000 ∧
    validate_power_limits .power (-1000) (-1000) = Except.ok (-1000) := by
  have h1 := power_limits_validation 2000 5
  have h2 := power_limits_validation 1000 1000
  have h3 := power_limits_validation (-1000) (-1000)
  refine ⟨h1.1 (Or.inl ?_), h2.2.1 ?_ ?_, h3.2.1 ?_ ?_⟩
  · show (1000 : ℚ) < |(⟨2000, 0⟩ : Q).toRat|
    norm_num [Q.toRat, Q.den]
  · show |(⟨1000, 0⟩ : Q).toRat| ≤ 1000
    norm_num [Q.toRat, Q.den]
  · show |(⟨1000, 0⟩ : Q).toRat| ≤ 1000
    norm_num [Q.toRat, Q.den]
  · show |(⟨-1000, 0⟩ : Q).toRat| ≤ 1000
    norm_num [Q.toRat, Q.den]
  · show |(⟨-1000, 0⟩ : Q).toRat| ≤ 1000
    norm_num [Q.toRat, Q.den]

/-- C8: the pinned rounding examples, under the round-half-to-even rule
of Python `round`: divide 100 by 3 at precision 4 yields exactly 33.3333,
add 10.5 and 5.3 at precision 2 yields exactly 15.8, and multiply 7 by 8
at precision 0 yields exactly 56; the accompanying `toRat` equations state
the produced values in `ℚ`. -/
theorem calculate_rounding_examples :
    (CalculatorService.calculate
        { operation := .divide, a := 100, b := 3, precision := 4 }).map
      CalculatorOutput.result = Except.ok (33.3333 : Q) ∧
    (33.3333 : Q).toRat = 333333 / 10000 ∧
    (CalculatorService.calculate
        { operation := .add, a := 10.5, b := 5.3, precision := 2 }).map
      CalculatorOutput.result = Except.ok (15.8 : Q) ∧
    (15.8 : Q).toRat = 158 / 10 ∧
    (CalculatorService.calculate
        { operation := .multiply, a := 7, b := 8, precision := 0 }).map
      CalculatorOutput.result = Except.ok (56 : Q) ∧
    (56 : Q).toRat = 56 := by
  refine ⟨rfl, ?_, rfl, ?_, rfl, ?_⟩
  · show (⟨333333, 9999⟩ : Q).toRat = 333333 / 10000
    norm_num [Q.toRat, Q.den]
  · show (⟨79, 4⟩ : Q).toRat = 158 / 10
    norm_num [Q.toRat, Q.den]
  · show (⟨56, 0⟩ : Q).toRat = 56
    norm_num [Q.toRat, Q.den]

/-- C9: the symbol table stores the exact mojibake byte sequences found in
the source - U+0E23 U+0097 for multiply and U+0E23 U+0E17 for divide -
which are not the multiplication and division signs the claim names, and
ASCII "-" rather than U+2212 for subtract; the rendered expression does
have the claimed shape, as the concrete formatted result shows. -/
theorem operation_symbols_are_mojibake :
    CalculatorService._get_operation_symbol .add = "+" ∧
    CalculatorService._get_operation_symbol .multiply = "ร\u0097" ∧
    CalculatorService._get_operation_symbol .divide = "รท" ∧
    CalculatorService._get_operation_symbol .multiply ≠ "×" ∧
    CalculatorService._get_operation_symbol .divide ≠ "÷" ∧
    CalculatorService._get_operation_symbol .subtract = "-" ∧
    CalculatorService._get_operation_symbol .subtract ≠ "−" ∧
    CalculatorService._get_operation_symbol .power = "^" ∧
    CalculatorService._get_operation_symbol .modulo = "%" ∧
    (CalculatorService.calculate
        { operation := .multiply, a := 7, b := 8, precision := 0 }).map
      CalculatorOutput.formatted_result =
        Except.ok "7.0 ร\u0097 8.0 = 56.0" :=
  ⟨rfl, rfl, rfl, by decide, by decide, rfl, by decide, rfl, rfl, rfl⟩

end MCP
